import Mathlib

/-!
Shallow embedding of `src/frontend/src/app/page.tsx` (the `WebsiteCloner`
React component): its state variables, the `executeCloning` two-stage
pipeline, `resetForm`, input normalization (`addHttpsIfNeeded`,
`validateUrl`) and the browser object-URL lifecycle used for the artifact
preview. Remote calls and the platform URL parser are external
collaborators; they are modelled as explicit response values and a
parameter, respectively. The async body of `executeCloning` is split at
its two `await` points into `phase0` (validation and clearing, up to the
capture fetch), `phase1` (capture-response handling, up to the clone
fetch) and `phase2` (clone-response handling), so that interleavings with
`resetForm` between suspension points can be stated; `executeCloning`
composes the three phases for the uninterrupted run.
-/

namespace Cloner

/-- JS `String.prototype.trim` (restricted to ASCII whitespace). -/
def jsTrim (s : String) : String :=
  String.mk (((s.data.dropWhile Char.isWhitespace).reverse.dropWhile
    Char.isWhitespace).reverse)

/-- JS `String.prototype.startsWith`. -/
def strStartsWith (s p : String) : Bool :=
  List.isPrefixOf p.data s.data

/-- Source `interface ScrapedData`, field `structure`. -/
structure PageStructure where
  h1 : String
  h2 : String
  navigation : Bool
  footer : Bool
  sidebar : Bool
deriving DecidableEq, Repr

/-- Source `interface ScrapedData`, elements of `assets.images`. -/
structure ImageAsset where
  src : String
  alt : String
  width : Nat
  height : Nat
deriving DecidableEq, Repr

/-- Source `interface ScrapedData`, field `assets`. -/
structure AssetInventory where
  images : List ImageAsset
deriving DecidableEq, Repr

/-- Source `interface ScrapedData`, field `stats`. -/
structure ScrapeStats where
  images_found : Nat
  has_screenshot : Bool
  css_rules : Nat
  dom_elements : Nat
deriving DecidableEq, Repr

/-- Source `interface ScrapedData` (the CaptureResult of the spec). -/
structure ScrapedData where
  url : String
  title : String
  screenshot : Option String
  «structure» : PageStructure
  assets : AssetInventory
  stats : ScrapeStats
  timestamp : String
  status : String
deriving DecidableEq, Repr

/-- Source `interface CloneResult`, field `processing_info`. -/
structure ProcessingInfo where
  context_length : Nat
  has_screenshot : Bool
  images_processed : Nat
deriving DecidableEq, Repr

/-- Source `interface CloneResult` (the ReconstructResult of the spec). -/
structure CloneResult where
  status : String
  model_used : String
  html_content : String
  timestamp : String
  processing_info : ProcessingInfo
deriving DecidableEq, Repr

/-- The `useState` variables of the `WebsiteCloner` component. -/
structure AppState where
  url : String
  isLoading : Bool
  scrapedData : Option ScrapedData
  cloneResult : Option CloneResult
  error : String
  previewUrl : String
  currentStep : String
  showAdvanced : Bool
  copySuccess : Bool
  viewportWidth : Int
  viewportHeight : Int
  waitTime : Int
deriving DecidableEq, Repr

/-- The initial values passed to `useState`. -/
def initialState : AppState :=
  { url := "", isLoading := false, scrapedData := none, cloneResult := none,
    error := "", previewUrl := "", currentStep := "", showAdvanced := false,
    copySuccess := false, viewportWidth := 1280, viewportHeight := 720,
    waitTime := 8000 }

/-- A `new Blob([content], \x7b type \x7d)` value. -/
structure Blob where
  content : String
  type : String
deriving DecidableEq, Repr

/-- The browser's process-wide table of live object URLs backing
`URL.createObjectURL` / `URL.revokeObjectURL`. -/
structure URLRegistry where
  nextId : Nat
  live : List (Nat × Blob)
deriving DecidableEq, Repr

def emptyRegistry : URLRegistry := ⟨0, []⟩

/-- The object-URL string minted for allocation number `n`. -/
def objectUrlOf (n : Nat) : String := "blob:" ++ toString n

/-- Platform `URL.createObjectURL(blob)`: mints a fresh URL and registers it. -/
def createObjectURL (reg : URLRegistry) (b : Blob) : String × URLRegistry :=
  (objectUrlOf reg.nextId, ⟨reg.nextId + 1, (reg.nextId, b) :: reg.live⟩)

/-- Platform `URL.revokeObjectURL(u)`: drops `u` from the live table; a no-op (and
in particular no fault) when `u` is absent or already revoked. -/
def revokeObjectURL (reg : URLRegistry) (u : String) : URLRegistry :=
  ⟨reg.nextId, reg.live.filter (fun p => objectUrlOf p.1 != u)⟩

/-- The allocation numbers of live object URLs. -/
def liveIds (reg : URLRegistry) : List Nat := reg.live.map (fun p => p.1)

/-- Whether object URL `u` is currently live. -/
def urlLive (reg : URLRegistry) (u : String) : Bool :=
  reg.live.any (fun p => objectUrlOf p.1 == u)

/-- The platform's `new URL(s)` constructor, abstracted to the datum the
component reads: the parsed `protocol` on success, `none` when the
constructor throws. -/
structure URLPlatform where
  protocolOf : String → Option String

/-- Source `validateUrl`: parse with `new URL` and accept exactly
the protocols `http:` and `https:`. -/
def validateUrl (P : URLPlatform) (inputUrl : String) : Bool :=
  match P.protocolOf inputUrl with
  | some p => p == "http:" || p == "https:"
  | none => false

/-- Source `addHttpsIfNeeded`. -/
def addHttpsIfNeeded (inputUrl : String) : String :=
  if !(strStartsWith inputUrl "http://") && !(strStartsWith inputUrl "https://")
  then "https://" ++ inputUrl
  else inputUrl

/-- A concrete `URLPlatform` instance for evaluating runs on closed
inputs: a scheme-prefixed non-empty remainder parses with that scheme. -/
def simpleProtocolOf (s : String) : Option String :=
  if strStartsWith s "https://" && s.length > 8 then some "https:"
  else if strStartsWith s "http://" && s.length > 7 then some "http:"
  else none

def simplePlatform : URLPlatform := ⟨simpleProtocolOf⟩

/-- Outcome of a `fetch` to a remote stage, at the granularity the
component observes: `ok` with the parsed JSON body, `httpError` with the
parsed error body's optional `detail` field (`response.ok` false), or
`networkError` when the promise rejects (transport failure). -/
inductive FetchResult (α : Type) where
  | ok (body : α)
  | httpError (detail : Option String)
  | networkError (msg : String)
deriving DecidableEq, Repr

/-- JS `errorData.detail || fallback`: the `detail` field when present and
truthy (a non-empty string), else the fallback. -/
def detailOrElse (detail : Option String) (fallback : String) : String :=
  match detail with
  | some d => if d == "" then fallback else d
  | none => fallback

/-- The JSON body of the `/scrape` POST. -/
structure CaptureRequest where
  url : String
  capture_screenshot : Bool
  viewport_width : Int
  viewport_height : Int
  wait_time : Int
deriving DecidableEq, Repr

/-- The JSON body of the `/clone` POST. -/
structure CloneRequest where
  model : String
  include_responsive : Bool
  include_interactions : Bool
  scraped_data : ScrapedData
deriving DecidableEq, Repr

/-- Observable remote calls issued by a run. -/
inductive Event where
  | captureCall (req : CaptureRequest)
  | cloneCall (req : CloneRequest)
deriving DecidableEq, Repr

/-- Result of `phase0`: either an early return before any remote call, or
the state at the moment the capture fetch is issued with its request. -/
inductive Phase0Result where
  | rejected (s : AppState)
  | launched (s : AppState) (req : CaptureRequest)
deriving DecidableEq, Repr

/-- Source `executeCloning`, lines 90–127: the synchronous segment from entry to
the first `await` (validation, state clearing, capture request). -/
def phase0 (P : URLPlatform) (s : AppState) : Phase0Result :=
  if jsTrim s.url == "" then
    .rejected { s with error := "Please enter a website URL" }
  else
    if !validateUrl P (addHttpsIfNeeded (jsTrim s.url)) then
      .rejected { s with error := "Please enter a valid URL (e.g., https://example.com)" }
    else
      .launched
        { s with
          isLoading := true, error := "", scrapedData := none,
          cloneResult := none, previewUrl := "",
          currentStep := "🔍 Analyzing website structure and capturing screenshots..." }
        { url := addHttpsIfNeeded (jsTrim s.url), capture_screenshot := true,
          viewport_width := s.viewportWidth,
          viewport_height := s.viewportHeight, wait_time := s.waitTime }

/-- Result of `phase1`: either the state after the catch/finally blocks
ran (run over), or the state at the moment the clone fetch is issued with
its request. -/
inductive Phase1Result where
  | failed (s : AppState)
  | proceeded (s : AppState) (req : CloneRequest)
deriving DecidableEq, Repr

/-- Source `executeCloning`, lines 129–151: handling of the capture response, up
to the second `await`. A non-ok response throws
`Error(errorData.detail || 'Website scraping failed')`; a rejected fetch
propagates its own message; both land in the catch block (which sets the
error and clears the step) and the finally block (which clears the
loading flag). -/
def phase1 (s : AppState) (resp : FetchResult ScrapedData) : Phase1Result :=
  match resp with
  | .ok scraped =>
      .proceeded
        { s with
          scrapedData := some scraped,
          currentStep := "🤖 AI analyzing design and generating HTML clone..." }
        { model := "gpt-4o", include_responsive := true,
          include_interactions := true, scraped_data := scraped }
  | .httpError detail =>
      .failed { s with
        error := "Failed to clone website: " ++ detailOrElse detail "Website scraping failed",
        currentStep := "", isLoading := false }
  | .networkError m =>
      .failed { s with
        error := "Failed to clone website: " ++ m,
        currentStep := "", isLoading := false }

/-- Source `executeCloning`, lines 153–176: handling of the clone response. On
success the preview object URL is created only when `cloneData.html_content`
is truthy (a non-empty string). -/
def phase2 (s : AppState) (reg : URLRegistry) (resp : FetchResult CloneResult) :
    AppState × URLRegistry :=
  match resp with
  | .ok cloneData =>
      let pr : String × URLRegistry :=
        if cloneData.html_content != "" then
          let c := createObjectURL reg ⟨cloneData.html_content, "text/html"⟩
          (c.1, c.2)
        else (s.previewUrl, reg)
      ({ s with
         cloneResult := some cloneData, previewUrl := pr.1,
         currentStep := "✅ Website cloning completed successfully!",
         isLoading := false }, pr.2)
  | .httpError detail =>
      ({ s with
         error := "Failed to clone website: " ++ detailOrElse detail "AI cloning failed",
         currentStep := "", isLoading := false }, reg)
  | .networkError m =>
      ({ s with
         error := "Failed to clone website: " ++ m,
         currentStep := "", isLoading := false }, reg)

/-- Final state, object-URL registry and issued remote calls of a run. -/
structure RunOutcome where
  state : AppState
  registry : URLRegistry
  events : List Event
deriving DecidableEq, Repr

/-- Source `executeCloning` run to completion with no interleaved handler: the
three phases composed, threading the object-URL registry and recording
which remote calls were issued. `captureResp` and `cloneResp` are the
environment's responses, consumed only if the corresponding call is
made. -/
def executeCloning (P : URLPlatform) (s : AppState) (reg : URLRegistry)
    (captureResp : FetchResult ScrapedData) (cloneResp : FetchResult CloneResult) :
    RunOutcome :=
  match phase0 P s with
  | .rejected s1 => ⟨s1, reg, []⟩
  | .launched s1 creq =>
    match phase1 s1 captureResp with
    | .failed s2 => ⟨s2, reg, [Event.captureCall creq]⟩
    | .proceeded s2 rreq =>
      let p := phase2 s2 reg cloneResp
      ⟨p.1, p.2, [Event.captureCall creq, Event.cloneCall rreq]⟩

/-- Source `resetForm`, lines 211–221: clear every state field, then revoke the
object URL that was in `previewUrl` when the handler ran (the closure
variable), guarded by its truthiness. -/
def resetForm (s : AppState) (reg : URLRegistry) : AppState × URLRegistry :=
  ({ s with
     url := "", scrapedData := none, cloneResult := none,
     error := "", previewUrl := "", currentStep := "" },
   if s.previewUrl != "" then revokeObjectURL reg s.previewUrl else reg)

/-- Handler `onChange` of the URL text input: `setUrl(e.target.value)`. -/
def handleUrlChange (s : AppState) (v : String) : AppState := { s with url := v }

/-- Handler `onChange` of the Viewport Width number input:
`setViewportWidth(Number(e.target.value))` — the numeric value is stored
as typed, with no clamping. -/
def handleViewportWidthChange (s : AppState) (v : Int) : AppState :=
  { s with viewportWidth := v }

/-- Handler `onChange` of the Viewport Height number input. -/
def handleViewportHeightChange (s : AppState) (v : Int) : AppState :=
  { s with viewportHeight := v }

/-- Handler `onChange` of the Wait Time number input. -/
def handleWaitTimeChange (s : AppState) (v : Int) : AppState :=
  { s with waitTime := v }

/-- The `min`/`max` attributes declared on the three number inputs
(lines 336–366). -/
def viewportWidthMin : Int := 800
def viewportWidthMax : Int := 1920
def viewportHeightMin : Int := 600
def viewportHeightMax : Int := 1080
def waitTimeMin : Int := 3000
def waitTimeMax : Int := 15000

/-- State projection of a `Phase0Result`. -/
def phase0State : Phase0Result → AppState
  | .rejected s => s
  | .launched s _ => s

/-- Capture request of a `Phase0Result`, when the run proceeded. -/
def phase0Request : Phase0Result → Option CaptureRequest
  | .rejected _ => none
  | .launched _ req => some req

/-- State projection of a `Phase1Result`. -/
def phase1State : Phase1Result → AppState
  | .failed s => s
  | .proceeded s _ => s

/-- Concrete capture result used to evaluate runs on closed inputs. -/
def sampleScraped : ScrapedData :=
  { url := "https://example.com", title := "Example",
    screenshot := some "shot",
    «structure» := ⟨"H1", "H2", true, true, false⟩,
    assets := ⟨[⟨"a.png", "a", 10, 20⟩]⟩,
    stats := ⟨1, true, 5, 100⟩, timestamp := "t1", status := "success" }

/-- Concrete reconstruct result with non-empty markup. -/
def sampleClone : CloneResult :=
  { status := "success", model_used := "gpt-4o",
    html_content := "<html><body>ok</body></html>", timestamp := "t2",
    processing_info := ⟨100, true, 1⟩ }

/-- Concrete reconstruct result whose generated markup is the empty string. -/
def sampleCloneEmpty : CloneResult := { sampleClone with html_content := "" }

/-- Characterization of the `launched` case of `phase0`: the state at the
moment the capture fetch is issued, and the request body. -/
lemma phase0_launched_eq (P : URLPlatform) (s s1 : AppState) (creq : CaptureRequest)
    (h : phase0 P s = .launched s1 creq) :
    s1 = { s with
           isLoading := true, error := "", scrapedData := none,
           cloneResult := none, previewUrl := "",
           currentStep := "🔍 Analyzing website structure and capturing screenshots..." } ∧
    creq = { url := addHttpsIfNeeded (jsTrim s.url), capture_screenshot := true,
             viewport_width := s.viewportWidth, viewport_height := s.viewportHeight,
             wait_time := s.waitTime } := by
  unfold phase0 at h
  split at h
  · exact Phase0Result.noConfusion h
  · split at h
    · exact Phase0Result.noConfusion h
    · injection h with h1 h2
      exact ⟨h1.symm, h2.symm⟩

/-- A run never revokes an object URL: every URL live before the run is
still live after it (the registry only grows). -/
lemma executeCloning_registry_mono (P : URLPlatform) (s : AppState)
    (reg : URLRegistry) (cresp : FetchResult ScrapedData)
    (rresp : FetchResult CloneResult) (n : Nat) (hn : n ∈ liveIds reg) :
    n ∈ liveIds (executeCloning P s reg cresp rresp).registry := by
  unfold executeCloning
  split
  · exact hn
  · split
    · exact hn
    · cases rresp with
      | ok c =>
          simp only [phase2]
          by_cases hc : c.html_content != ""
          · simp only [hc, if_true, createObjectURL, liveIds, List.map_cons,
              List.mem_cons] at *
            exact Or.inr hn
          · simp only [hc, if_false]
            exact hn
      | httpError d => exact hn
      | networkError m => exact hn

/-- Case analysis of a rejected run: `executeCloning` on input failing
validation early-returns with only the error message set. -/
lemma executeCloning_invalid (P : URLPlatform) (s : AppState) (reg : URLRegistry)
    (cresp : FetchResult ScrapedData) (rresp : FetchResult CloneResult)
    (h : jsTrim s.url = "" ∨ validateUrl P (addHttpsIfNeeded (jsTrim s.url)) = false) :
    executeCloning P s reg cresp rresp =
      ⟨{ s with error := if jsTrim s.url = "" then "Please enter a website URL"
                 else "Please enter a valid URL (e.g., https://example.com)" },
       reg, []⟩ := by
  unfold executeCloning phase0
  by_cases h0 : jsTrim s.url = ""
  · simp [h0]
  · rcases h with h | h
    · exact absurd h h0
    · simp [h0, h]


/-- Claim C9 (confirmed): for every input string that does not begin with
`http://` or `https://`, `addHttpsIfNeeded` prepends `https://`; inputs
already carrying one of the two prefixes are passed through unchanged. -/
theorem C9_scheme_normalization (s : String) :
    (strStartsWith s "http://" = false → strStartsWith s "https://" = false →
      addHttpsIfNeeded s = "https://" ++ s) ∧
    (strStartsWith s "http://" = true ∨ strStartsWith s "https://" = true →
      addHttpsIfNeeded s = s) := by
  constructor
  · intro h1 h2
    simp [addHttpsIfNeeded, h1, h2]
  · intro h
    rcases h with h | h <;> simp [addHttpsIfNeeded, h]

/-- Claim C9, witness: `example.com` is prefixed with the secure scheme,
`http://example.com` passes through unchanged. -/
theorem C9_scheme_normalization_witness :
    addHttpsIfNeeded "example.com" = "https://example.com" ∧
    addHttpsIfNeeded "http://example.com" = "http://example.com" := by
  constructor
  · have h := (C9_scheme_normalization "example.com").1 (by decide) (by decide)
    rw [h]
    decide
  · exact (C9_scheme_normalization "http://example.com").2 (Or.inl (by decide))

/-- Claim C8 (confirmed): for every input that fails validation — empty
after trimming, or failing the platform URL parse / scheme check after
normalization — `executeCloning` issues no remote call, the loading flag
and stored results are untouched (the Session does not advance), and the
error is set to the empty-input message for empty input, else the
malformed-input message. -/
theorem C8_validation_failure_no_capture (P : URLPlatform) (s : AppState)
    (reg : URLRegistry) (cresp : FetchResult ScrapedData)
    (rresp : FetchResult CloneResult)
    (h : jsTrim s.url = "" ∨ validateUrl P (addHttpsIfNeeded (jsTrim s.url)) = false) :
    (executeCloning P s reg cresp rresp).events = [] ∧
    (executeCloning P s reg cresp rresp).state.isLoading = s.isLoading ∧
    (executeCloning P s reg cresp rresp).state.scrapedData = s.scrapedData ∧
    (executeCloning P s reg cresp rresp).state.cloneResult = s.cloneResult ∧
    (executeCloning P s reg cresp rresp).state.error =
      (if jsTrim s.url = "" then "Please enter a website URL"
       else "Please enter a valid URL (e.g., https://example.com)") := by
  rw [executeCloning_invalid P s reg cresp rresp h]
  exact ⟨rfl, rfl, rfl, rfl, rfl⟩

/-- Claim C8, witness: the empty input on the initial state issues no
call and reports the empty-input message. -/
theorem C8_validation_failure_no_capture_witness :
    (executeCloning simplePlatform initialState emptyRegistry
      (FetchResult.httpError none) (FetchResult.httpError none)).events = [] ∧
    (executeCloning simplePlatform initialState emptyRegistry
      (FetchResult.httpError none) (FetchResult.httpError none)).state.error =
      "Please enter a website URL" := by
  have h := C8_validation_failure_no_capture simplePlatform initialState emptyRegistry
    (FetchResult.httpError none) (FetchResult.httpError none) (Or.inl (by decide))
  refine ⟨h.1, ?_⟩
  rw [h.2.2.2.2]
  decide

/-- Claim C10 (confirmed): invoking a run with an input that fails
validation while results of a previous run are present leaves the prior
captured data, reconstruct result, preview reference and progress text
unchanged, releases no object URL (registry unchanged), and only sets the
error message. -/
theorem C10_invalid_run_preserves_prior_session (P : URLPlatform) (s : AppState)
    (reg : URLRegistry) (cresp : FetchResult ScrapedData)
    (rresp : FetchResult CloneResult) (sd : ScrapedData) (cr : CloneResult)
    (h : jsTrim s.url = "" ∨ validateUrl P (addHttpsIfNeeded (jsTrim s.url)) = false)
    (hd : s.scrapedData = some sd) (hc : s.cloneResult = some cr) :
    (executeCloning P s reg cresp rresp).state.scrapedData = some sd ∧
    (executeCloning P s reg cresp rresp).state.cloneResult = some cr ∧
    (executeCloning P s reg cresp rresp).state.previewUrl = s.previewUrl ∧
    (executeCloning P s reg cresp rresp).state.currentStep = s.currentStep ∧
    (executeCloning P s reg cresp rresp).registry = reg ∧
    (executeCloning P s reg cresp rresp).state.error =
      (if jsTrim s.url = "" then "Please enter a website URL"
       else "Please enter a valid URL (e.g., https://example.com)") := by
  rw [executeCloning_invalid P s reg cresp rresp h]
  exact ⟨hd, hc, rfl, rfl, rfl, rfl⟩

/-- A registry holding the single live object URL `blob:0`. -/
def staleRegistry : URLRegistry :=
  ⟨1, [(0, ⟨"<html><body>ok</body></html>", "text/html"⟩)]⟩

/-- A state left by a completed run, with the URL field edited down to a
single space (which trims to empty). -/
def staleState : AppState :=
  { initialState with
    url := " ", scrapedData := some sampleScraped,
    cloneResult := some sampleClone, previewUrl := "blob:0",
    currentStep := "done" }

/-- Claim C10, witness: an empty-after-trim input on a state holding a
completed run's results leaves them readable, keeps the handle live and
sets only the error. -/
theorem C10_invalid_run_preserves_prior_session_witness :
    (executeCloning simplePlatform staleState staleRegistry
      (FetchResult.httpError none) (FetchResult.httpError none)).state.scrapedData =
      some sampleScraped ∧
    (executeCloning simplePlatform staleState staleRegistry
      (FetchResult.httpError none) (FetchResult.httpError none)).state.cloneResult =
      some sampleClone ∧
    (executeCloning simplePlatform staleState staleRegistry
      (FetchResult.httpError none) (FetchResult.httpError none)).state.previewUrl =
      "blob:0" ∧
    (executeCloning simplePlatform staleState staleRegistry
      (FetchResult.httpError none) (FetchResult.httpError none)).registry =
      staleRegistry ∧
    (executeCloning simplePlatform staleState staleRegistry
      (FetchResult.httpError none) (FetchResult.httpError none)).state.error =
      "Please enter a website URL" := by
  have h := C10_invalid_run_preserves_prior_session simplePlatform staleState
    staleRegistry (FetchResult.httpError none) (FetchResult.httpError none)
    sampleScraped sampleClone (Or.inl (by decide)) rfl rfl
  refine ⟨h.1, h.2.1, ?_, h.2.2.2.2.1, ?_⟩
  · rw [h.2.2.1]
    decide
  · rw [h.2.2.2.2.2]
    decide


/-- Handling the clone response never changes the stored capture data. -/
lemma phase2_scrapedData (s : AppState) (reg : URLRegistry)
    (resp : FetchResult CloneResult) :
    (phase2 s reg resp).1.scrapedData = s.scrapedData := by
  cases resp <;> rfl

/-- Handling the clone response always clears the loading flag. -/
lemma phase2_isLoading (s : AppState) (reg : URLRegistry)
    (resp : FetchResult CloneResult) :
    (phase2 s reg resp).1.isLoading = false := by
  cases resp <;> rfl

/-- A concrete state whose URL input holds `example.com`. -/
def okState : AppState := handleUrlChange initialState "example.com"

/-- The state at the capture call of a run from `okState`. -/
def okS1 : AppState := phase0State (phase0 simplePlatform okState)

/-- The capture request of a run from `okState`. -/
def okCreq : CaptureRequest := ⟨"https://example.com", true, 1280, 720, 8000⟩

/-- Claim C3 (confirmed): the reconstruct call is issued if and only if
the capture call was issued and succeeded; its payload is exactly the
received capture result, which is also stored in the Session at that
point; and in the event trace the capture call strictly precedes it. -/
theorem C3_reconstruct_iff_capture_success (P : URLPlatform) (s : AppState)
    (reg : URLRegistry) (cresp : FetchResult ScrapedData)
    (rresp : FetchResult CloneResult) :
    (∀ r, Event.cloneCall r ∈ (executeCloning P s reg cresp rresp).events →
        cresp = FetchResult.ok r.scraped_data ∧
        (executeCloning P s reg cresp rresp).state.scrapedData =
          some r.scraped_data ∧
        ∃ c, (executeCloning P s reg cresp rresp).events =
          [Event.captureCall c, Event.cloneCall r]) ∧
    (∀ c d, Event.captureCall c ∈ (executeCloning P s reg cresp rresp).events →
        cresp = FetchResult.ok d →
        Event.cloneCall ⟨"gpt-4o", true, true, d⟩ ∈
          (executeCloning P s reg cresp rresp).events) := by
  rcases h0 : phase0 P s with s1 | ⟨s1, creq⟩
  · simp only [executeCloning, h0]
    constructor
    · intro r hr
      exact absurd hr (List.not_mem_nil _)
    · intro c d hc _
      exact absurd hc (List.not_mem_nil _)
  · cases cresp with
    | ok scraped =>
        simp only [executeCloning, h0, phase1]
        constructor
        · intro r hr
          simp only [List.mem_cons, List.not_mem_nil, or_false] at hr
          rcases hr with h | h

          · exact Event.noConfusion h
          · cases h
            refine ⟨rfl, ?_, creq, rfl⟩
            rw [phase2_scrapedData]
        · intro c d _ hd
          injection hd with hd
          subst hd
          simp
    | httpError det =>
        simp only [executeCloning, h0, phase1]
        constructor
        · intro r hr
          simp only [List.mem_cons, List.not_mem_nil, or_false] at hr
          exact Event.noConfusion hr
        · intro c d _ hd
          exact FetchResult.noConfusion hd
    | networkError m =>
        simp only [executeCloning, h0, phase1]
        constructor
        · intro r hr
          simp only [List.mem_cons, List.not_mem_nil, or_false] at hr
          exact Event.noConfusion hr
        · intro c d _ hd
          exact FetchResult.noConfusion hd

/-- Claim C3, witness: in a successful run from `okState`, a reconstruct
call carrying the received capture result is in fact issued. -/
theorem C3_reconstruct_iff_capture_success_witness :
    Event.cloneCall ⟨"gpt-4o", true, true, sampleScraped⟩ ∈
      (executeCloning simplePlatform okState emptyRegistry
        (FetchResult.ok sampleScraped) (FetchResult.ok sampleClone)).events := by
  exact (C3_reconstruct_iff_capture_success simplePlatform okState emptyRegistry
    (FetchResult.ok sampleScraped) (FetchResult.ok sampleClone)).2
    okCreq sampleScraped (by decide) rfl


/-- Claim C4 (confirmed): a failing remote stage — transport failure or a
failure-status response, at either stage — short-circuits the run to the
failed state (error set, loading cleared), with the error derived from
the error body's `detail` field when present and non-empty (so the error
text contains the detail, e.g. `timeout`), else from the generic
stage-failure message, or from the transport error's own message; no
artifact preview handle is created (registry unchanged, preview reference
empty), a capture-stage failure never issues the reconstruct call, and a
reconstruct-stage failure of any mode retains the already-stored capture
result. -/
theorem C4_stage_failure_shortcircuit (P : URLPlatform) (s s1 : AppState)
    (creq : CaptureRequest) (reg : URLRegistry)
    (h : phase0 P s = Phase0Result.launched s1 creq) :
    (∀ (d : String) (rresp : FetchResult CloneResult), d ≠ "" →
      (executeCloning P s reg (FetchResult.httpError (some d)) rresp).state.error =
        "Failed to clone website: " ++ d ∧
      (∃ a b, (executeCloning P s reg (FetchResult.httpError (some d)) rresp).state.error
        = a ++ d ++ b) ∧
      (executeCloning P s reg (FetchResult.httpError (some d)) rresp).state.isLoading
        = false ∧
      (executeCloning P s reg (FetchResult.httpError (some d)) rresp).state.previewUrl
        = "" ∧
      (executeCloning P s reg (FetchResult.httpError (some d)) rresp).registry = reg ∧
      (∀ r, Event.cloneCall r ∉
        (executeCloning P s reg (FetchResult.httpError (some d)) rresp).events)) ∧
    (∀ (det : Option String) (rresp : FetchResult CloneResult),
      det = none ∨ det = some "" →
      (executeCloning P s reg (FetchResult.httpError det) rresp).state.error =
        "Failed to clone website: Website scraping failed" ∧
      (executeCloning P s reg (FetchResult.httpError det) rresp).state.isLoading
        = false ∧
      (executeCloning P s reg (FetchResult.httpError det) rresp).state.previewUrl
        = "" ∧
      (executeCloning P s reg (FetchResult.httpError det) rresp).registry = reg ∧
      (∀ r, Event.cloneCall r ∉
        (executeCloning P s reg (FetchResult.httpError det) rresp).events)) ∧
    (∀ m rresp,
      (executeCloning P s reg (FetchResult.networkError m) rresp).state.error =
        "Failed to clone website: " ++ m ∧
      (executeCloning P s reg (FetchResult.networkError m) rresp).state.isLoading
        = false ∧
      (executeCloning P s reg (FetchResult.networkError m) rresp).state.previewUrl
        = "" ∧
      (executeCloning P s reg (FetchResult.networkError m) rresp).registry = reg ∧
      (∀ r, Event.cloneCall r ∉
        (executeCloning P s reg (FetchResult.networkError m) rresp).events)) ∧
    (∀ scraped d, d ≠ "" →
      (executeCloning P s reg (FetchResult.ok scraped)
        (FetchResult.httpError (some d))).state.error =
        "Failed to clone website: " ++ d ∧
      (executeCloning P s reg (FetchResult.ok scraped)
        (FetchResult.httpError (some d))).state.scrapedData = some scraped ∧
      (executeCloning P s reg (FetchResult.ok scraped)
        (FetchResult.httpError (some d))).state.isLoading = false ∧
      (executeCloning P s reg (FetchResult.ok scraped)
        (FetchResult.httpError (some d))).state.previewUrl = "" ∧
      (executeCloning P s reg (FetchResult.ok scraped)
        (FetchResult.httpError (some d))).registry = reg) ∧
    (∀ scraped (det : Option String), det = none ∨ det = some "" →
      (executeCloning P s reg (FetchResult.ok scraped)
        (FetchResult.httpError det)).state.error =
        "Failed to clone website: AI cloning failed" ∧
      (executeCloning P s reg (FetchResult.ok scraped)
        (FetchResult.httpError det)).state.scrapedData = some scraped ∧
      (executeCloning P s reg (FetchResult.ok scraped)
        (FetchResult.httpError det)).state.isLoading = false ∧
      (executeCloning P s reg (FetchResult.ok scraped)
        (FetchResult.httpError det)).state.previewUrl = "" ∧
      (executeCloning P s reg (FetchResult.ok scraped)
        (FetchResult.httpError det)).registry = reg) ∧
    (∀ scraped m,
      (executeCloning P s reg (FetchResult.ok scraped)
        (FetchResult.networkError m)).state.error =
        "Failed to clone website: " ++ m ∧
      (executeCloning P s reg (FetchResult.ok scraped)
        (FetchResult.networkError m)).state.scrapedData = some scraped ∧
      (executeCloning P s reg (FetchResult.ok scraped)
        (FetchResult.networkError m)).state.isLoading = false ∧
      (executeCloning P s reg (FetchResult.ok scraped)
        (FetchResult.networkError m)).state.previewUrl = "" ∧
      (executeCloning P s reg (FetchResult.ok scraped)
        (FetchResult.networkError m)).registry = reg) := by
  obtain ⟨hs1, hcreq⟩ := phase0_launched_eq P s s1 creq h
  refine ⟨?_, ?_, ?_, ?_, ?_, ?_⟩
  · intro d rresp hd
    have hbe : (d == "") = false := by
      exact beq_eq_false_iff_ne.mpr hd
    refine ⟨?_, ?_, ?_, ?_, ?_, ?_⟩
    · simp [executeCloning, h, phase1, detailOrElse, hbe]
    · refine ⟨"Failed to clone website: ", "", ?_⟩
      rw [String.append_empty]
      simp [executeCloning, h, phase1, detailOrElse, hbe]
    · simp [executeCloning, h, phase1]
    · simp [executeCloning, h, phase1, hs1]
    · simp [executeCloning, h, phase1]
    · intro r
      simp [executeCloning, h, phase1]
  · intro det rresp hdet
    rcases hdet with rfl | rfl
    · refine ⟨?_, ?_, ?_, ?_, ?_⟩
      · simp [executeCloning, h, phase1, detailOrElse]
      · simp [executeCloning, h, phase1]
      · simp [executeCloning, h, phase1, hs1]
      · simp [executeCloning, h, phase1]
      · intro r
        simp [executeCloning, h, phase1]
    · refine ⟨?_, ?_, ?_, ?_, ?_⟩
      · simp [executeCloning, h, phase1, detailOrElse]
      · simp [executeCloning, h, phase1]
      · simp [executeCloning, h, phase1, hs1]
      · simp [executeCloning, h, phase1]
      · intro r
        simp [executeCloning, h, phase1]
  · intro m rresp
    refine ⟨?_, ?_, ?_, ?_, ?_⟩
    · simp [executeCloning, h, phase1]
    · simp [executeCloning, h, phase1]
    · simp [executeCloning, h, phase1, hs1]
    · simp [executeCloning, h, phase1]
    · intro r
      simp [executeCloning, h, phase1]
  · intro scraped d hd
    have hbe : (d == "") = false := by
      exact beq_eq_false_iff_ne.mpr hd
    refine ⟨?_, ?_, ?_, ?_, ?_⟩
    · simp [executeCloning, h, phase1, phase2, detailOrElse, hbe]
    · simp [executeCloning, h, phase1, phase2]
    · simp [executeCloning, h, phase1, phase2]
    · simp [executeCloning, h, phase1, phase2, hs1]
    · simp [executeCloning, h, phase1, phase2]
  · intro scraped det hdet
    rcases hdet with rfl | rfl
    · refine ⟨?_, ?_, ?_, ?_, ?_⟩
      · simp [executeCloning, h, phase1, phase2, detailOrElse]
      · simp [executeCloning, h, phase1, phase2]
      · simp [executeCloning, h, phase1, phase2]
      · simp [executeCloning, h, phase1, phase2, hs1]
      · simp [executeCloning, h, phase1, phase2]
    · refine ⟨?_, ?_, ?_, ?_, ?_⟩
      · simp [executeCloning, h, phase1, phase2, detailOrElse]
      · simp [executeCloning, h, phase1, phase2]
      · simp [executeCloning, h, phase1, phase2]
      · simp [executeCloning, h, phase1, phase2, hs1]
      · simp [executeCloning, h, phase1, phase2]
  · intro scraped m
    refine ⟨?_, ?_, ?_, ?_, ?_⟩
    · simp [executeCloning, h, phase1, phase2]
    · simp [executeCloning, h, phase1, phase2]
    · simp [executeCloning, h, phase1, phase2]
    · simp [executeCloning, h, phase1, phase2, hs1]
    · simp [executeCloning, h, phase1, phase2]

/-- Claim C4, witness: a capture error body with detail `timeout` yields
the failed state whose error text is exactly the stage message followed by
`timeout` (in particular it contains `timeout`), with no reconstruct call;
a reconstruct-stage error body keeps the stored capture result; and a
reconstruct-stage transport failure also keeps it, with its own message
surfaced and no handle created. -/
theorem C4_stage_failure_shortcircuit_witness :
    (executeCloning simplePlatform okState emptyRegistry
      (FetchResult.httpError (some "timeout"))
      (FetchResult.ok sampleClone)).state.error =
      "Failed to clone website: timeout" ∧
    (∀ r, Event.cloneCall r ∉ (executeCloning simplePlatform okState emptyRegistry
      (FetchResult.httpError (some "timeout")) (FetchResult.ok sampleClone)).events) ∧
    (executeCloning simplePlatform okState emptyRegistry
      (FetchResult.ok sampleScraped)
      (FetchResult.httpError (some "bad model"))).state.scrapedData =
      some sampleScraped ∧
    (executeCloning simplePlatform okState emptyRegistry
      (FetchResult.ok sampleScraped)
      (FetchResult.httpError (some "bad model"))).state.error =
      "Failed to clone website: bad model" ∧
    (executeCloning simplePlatform okState emptyRegistry
      (FetchResult.ok sampleScraped)
      (FetchResult.httpError none)).state.error =
      "Failed to clone website: AI cloning failed" ∧
    (executeCloning simplePlatform okState emptyRegistry
      (FetchResult.ok sampleScraped)
      (FetchResult.networkError "connection lost")).state.scrapedData =
      some sampleScraped ∧
    (executeCloning simplePlatform okState emptyRegistry
      (FetchResult.ok sampleScraped)
      (FetchResult.networkError "connection lost")).state.error =
      "Failed to clone website: connection lost" ∧
    (executeCloning simplePlatform okState emptyRegistry
      (FetchResult.ok sampleScraped)
      (FetchResult.networkError "connection lost")).state.previewUrl = "" := by
  have h := C4_stage_failure_shortcircuit simplePlatform okState okS1 okCreq
    emptyRegistry (by decide)
  have h1 := h.1 "timeout" (FetchResult.ok sampleClone) (by decide)
  have h4 := h.2.2.2.1 sampleScraped "bad model" (by decide)
  have h5 := h.2.2.2.2.1 sampleScraped none (Or.inl rfl)
  have h6 := h.2.2.2.2.2 sampleScraped "connection lost"
  refine ⟨?_, h1.2.2.2.2.2, h4.2.1, ?_, h5.1, h6.2.1, ?_, h6.2.2.2.1⟩
  · rw [h1.1]
    decide
  · rw [h4.1]
    decide
  · rw [h6.1]
    decide

/-- Revoking an object URL a second time changes nothing (and in this
total model in particular cannot fault). -/
lemma revoke_idempotent (reg : URLRegistry) (u : String) :
    revokeObjectURL (revokeObjectURL reg u) u = revokeObjectURL reg u := by
  cases reg with
  | mk nid l =>
    simp only [revokeObjectURL]
    congr 1
    induction l with
    | nil => rfl
    | cons a t ih =>
        by_cases ha : (objectUrlOf a.1 != u) = true
        · simp [List.filter_cons, ha, ih]
        · simp [List.filter_cons, ha, ih]

/-- After revoking `u`, the URL `u` is no longer live. -/
lemma urlLive_revoke_self (reg : URLRegistry) (u : String) :
    urlLive (revokeObjectURL reg u) u = false := by
  cases reg with
  | mk nid l =>
    simp only [urlLive, revokeObjectURL]
    induction l with
    | nil => rfl
    | cons a t ih =>
        by_cases ha : (objectUrlOf a.1 != u) = true
        · have hne : (objectUrlOf a.1 == u) = false := by
            simpa [bne] using ha
          simp [List.filter_cons, ha, hne, ih]
        · simp [List.filter_cons, ha, ih]

/-- Revoking `u` removes exactly the entries minted for `u` and keeps
every other live URL. -/
lemma liveIds_revoke (reg : URLRegistry) (u : String) (n : Nat) :
    n ∈ liveIds (revokeObjectURL reg u) ↔
      n ∈ liveIds reg ∧ objectUrlOf n ≠ u := by
  simp only [liveIds, revokeObjectURL, List.mem_map, List.mem_filter, bne_iff_ne]
  constructor
  · rintro ⟨p, ⟨hp, hne⟩, rfl⟩
    exact ⟨⟨p, hp, rfl⟩, hne⟩
  · rintro ⟨⟨p, hp, rfl⟩, hne⟩
    exact ⟨p, ⟨hp, hne⟩, rfl⟩

/-- Claim C5 (confirmed): `resetForm` always leaves the URL field, capture
result, reconstruct result, error, progress text and preview reference all
cleared; when a preview handle existed it revokes exactly that handle (it
is no longer live, every other live handle survives), when none existed
the registry is untouched; and a second release of the same handle is a
no-op rather than a fault. -/
theorem C5_reset_clears_and_releases (s : AppState) (reg : URLRegistry) :
    (resetForm s reg).1.url = "" ∧
    (resetForm s reg).1.scrapedData = none ∧
    (resetForm s reg).1.cloneResult = none ∧
    (resetForm s reg).1.error = "" ∧
    (resetForm s reg).1.previewUrl = "" ∧
    (resetForm s reg).1.currentStep = "" ∧
    (s.previewUrl = "" → (resetForm s reg).2 = reg) ∧
    (s.previewUrl ≠ "" →
      urlLive (resetForm s reg).2 s.previewUrl = false ∧
      (∀ n, n ∈ liveIds (resetForm s reg).2 ↔
        n ∈ liveIds reg ∧ objectUrlOf n ≠ s.previewUrl)) ∧
    (∀ u, revokeObjectURL (revokeObjectURL reg u) u = revokeObjectURL reg u) := by
  refine ⟨rfl, rfl, rfl, rfl, rfl, rfl, ?_, ?_, fun u => revoke_idempotent reg u⟩
  · intro hp
    simp [resetForm, hp]
  · intro hp
    have hb : (s.previewUrl != "") = true := bne_iff_ne.mpr hp
    constructor
    · simp only [resetForm, hb, if_true]
      exact urlLive_revoke_self reg s.previewUrl
    · intro n
      simp only [resetForm, hb, if_true]
      exact liveIds_revoke reg s.previewUrl n

/-- Claim C5, witness: resetting a state holding the live handle `blob:0`
clears every field and revokes that handle, and revoking it again is a
no-op. -/
theorem C5_reset_clears_and_releases_witness :
    (resetForm staleState staleRegistry).1.scrapedData = none ∧
    (resetForm staleState staleRegistry).1.previewUrl = "" ∧
    urlLive (resetForm staleState staleRegistry).2 "blob:0" = false ∧
    revokeObjectURL (revokeObjectURL staleRegistry "blob:0") "blob:0" =
      revokeObjectURL staleRegistry "blob:0" := by
  have h := C5_reset_clears_and_releases staleState staleRegistry
  have h8 := h.2.2.2.2.2.2.2.1 (by decide)
  exact ⟨h.2.1, h.2.2.2.2.1, h8.1, h.2.2.2.2.2.2.2.2 "blob:0"⟩


/-- Claim C1 (amended, proved): once validation passes, the state at the
moment the capture call is issued has the prior capture result,
reconstruct result, error and preview reference all cleared — but the
previous run's artifact handle is NOT released then or at any later point
of the run: every object URL live before the run is still live after it,
so a handle replaced by a new run is leaked, and releases happen only
through `resetForm`. -/
theorem C1_clear_before_capture_without_release (P : URLPlatform)
    (s s1 : AppState) (creq : CaptureRequest) (reg : URLRegistry)
    (cresp : FetchResult ScrapedData) (rresp : FetchResult CloneResult)
    (h : phase0 P s = Phase0Result.launched s1 creq) :
    s1.scrapedData = none ∧ s1.cloneResult = none ∧ s1.error = "" ∧
    s1.previewUrl = "" ∧
    (∀ n, n ∈ liveIds reg →
      n ∈ liveIds (executeCloning P s reg cresp rresp).registry) := by
  obtain ⟨hs1, -⟩ := phase0_launched_eq P s s1 creq h
  subst hs1
  exact ⟨rfl, rfl, rfl, rfl,
    fun n hn => executeCloning_registry_mono P s reg cresp rresp n hn⟩

/-- Claim C1, witness: starting a run from `okState` over a registry that
already holds the live handle `blob:0`, the cleared fields hold at the
capture call and `blob:0` is still live after the run. -/
theorem C1_clear_before_capture_without_release_witness :
    okS1.scrapedData = none ∧ okS1.previewUrl = "" ∧
    0 ∈ liveIds (executeCloning simplePlatform okState staleRegistry
      (FetchResult.ok sampleScraped) (FetchResult.ok sampleClone)).registry := by
  have h := C1_clear_before_capture_without_release simplePlatform okState okS1
    okCreq staleRegistry (FetchResult.ok sampleScraped)
    (FetchResult.ok sampleClone) (by decide)
  exact ⟨h.1, h.2.2.2.1, h.2.2.2.2 0 (by decide)⟩

/-- First successful run from `okState` on an empty registry. -/
def run1 : RunOutcome :=
  executeCloning simplePlatform okState emptyRegistry
    (FetchResult.ok sampleScraped) (FetchResult.ok sampleClone)

/-- Second successful run, started directly from the first run's final
state and registry. -/
def run2 : RunOutcome :=
  executeCloning simplePlatform run1.state run1.registry
    (FetchResult.ok sampleScraped) (FetchResult.ok sampleClone)

/-- Claim C1, counterexample: the first run materializes handle `blob:0`;
a second validated run replaces it with `blob:1`, yet `blob:0` is still
live after the second run — the replaced handle was never released, so it
is not the case that every handle is released exactly once when replaced
by a new run's handle. -/
theorem C1_replaced_handle_never_released_cex :
    run1.state.previewUrl = "blob:0" ∧
    run2.state.previewUrl = "blob:1" ∧
    urlLive run2.registry "blob:0" = true ∧
    urlLive run2.registry "blob:1" = true := by
  exact ⟨rfl, rfl, rfl, rfl⟩

/-- Claim C2 (amended, proved): the code has no run identifier and no
stale-response check: when a run is reset between its two suspension
points (after the capture response, while the clone fetch is pending),
the reset clears the Session, yet the late clone response is still
applied to the cleared Session — its reconstruct result is written rather
than discarded. -/
theorem C2_late_response_applied_after_reset (P : URLPlatform)
    (s s1 : AppState) (creq : CaptureRequest) (reg : URLRegistry)
    (scraped : ScrapedData) (cloneData : CloneResult)
    (_h : phase0 P s = Phase0Result.launched s1 creq) :
    (resetForm (phase1State (phase1 s1 (FetchResult.ok scraped))) reg).1.scrapedData
      = none ∧
    (resetForm (phase1State (phase1 s1 (FetchResult.ok scraped))) reg).1.cloneResult
      = none ∧
    (phase2 (resetForm (phase1State (phase1 s1 (FetchResult.ok scraped))) reg).1
       (resetForm (phase1State (phase1 s1 (FetchResult.ok scraped))) reg).2
       (FetchResult.ok cloneData)).1.cloneResult = some cloneData := by
  exact ⟨rfl, rfl, rfl⟩

/-- Claim C2, witness: the amended behaviour evaluated on the concrete
trace from `okState`. -/
theorem C2_late_response_applied_after_reset_witness :
    (resetForm (phase1State (phase1 okS1 (FetchResult.ok sampleScraped)))
      emptyRegistry).1.scrapedData = none ∧
    (phase2 (resetForm (phase1State (phase1 okS1 (FetchResult.ok sampleScraped)))
        emptyRegistry).1
      (resetForm (phase1State (phase1 okS1 (FetchResult.ok sampleScraped)))
        emptyRegistry).2
      (FetchResult.ok sampleClone)).1.cloneResult = some sampleClone := by
  have h := C2_late_response_applied_after_reset simplePlatform okState okS1
    okCreq emptyRegistry sampleScraped sampleClone (by decide)
  exact ⟨h.1, h.2.2⟩

/-- The Session state after the capture response of a run from `okState`,
while the clone fetch is pending. -/
def c2S2 : AppState := phase1State (phase1 okS1 (FetchResult.ok sampleScraped))

/-- A reset performed at that point. -/
def c2ResetPair : AppState × URLRegistry := resetForm c2S2 emptyRegistry

/-- The late clone response applied after the reset. -/
def c2Final : AppState × URLRegistry :=
  phase2 c2ResetPair.1 c2ResetPair.2 (FetchResult.ok sampleClone)

/-- Claim C2, counterexample: after Reset has cleared the Session, the
late reconstruct response is written into it — the cleared Session ends up
holding the reconstruct result and a freshly materialized handle, so late
responses are applied, not detected and discarded (no run identifier
exists in the code). -/
theorem C2_no_stale_response_guard_cex :
    c2ResetPair.1.scrapedData = none ∧
    c2ResetPair.1.cloneResult = none ∧
    c2Final.1.cloneResult = some sampleClone ∧
    c2Final.1.previewUrl = "blob:0" ∧
    urlLive c2Final.2 "blob:0" = true := by
  exact ⟨rfl, rfl, rfl, rfl, rfl⟩

/-- Claim C6 (amended, proved): on reconstruct success the run stores the
reconstruct result and completes (error empty, loading cleared, stored
capture and reconstruct results non-absent), but an artifact preview
handle is materialized and stored only when the generated markup is
non-empty; for empty markup no handle is created and the registry is
untouched. -/
theorem C6_success_completion (P : URLPlatform) (s s1 : AppState)
    (creq : CaptureRequest) (reg : URLRegistry) (scraped : ScrapedData)
    (cloneData : CloneResult)
    (h : phase0 P s = Phase0Result.launched s1 creq) :
    (executeCloning P s reg (FetchResult.ok scraped)
      (FetchResult.ok cloneData)).state.scrapedData = some scraped ∧
    (executeCloning P s reg (FetchResult.ok scraped)
      (FetchResult.ok cloneData)).state.cloneResult = some cloneData ∧
    (executeCloning P s reg (FetchResult.ok scraped)
      (FetchResult.ok cloneData)).state.error = "" ∧
    (executeCloning P s reg (FetchResult.ok scraped)
      (FetchResult.ok cloneData)).state.isLoading = false ∧
    (cloneData.html_content ≠ "" →
      (executeCloning P s reg (FetchResult.ok scraped)
        (FetchResult.ok cloneData)).state.previewUrl = objectUrlOf reg.nextId ∧
      urlLive (executeCloning P s reg (FetchResult.ok scraped)
        (FetchResult.ok cloneData)).registry (objectUrlOf reg.nextId) = true) ∧
    (cloneData.html_content = "" →
      (executeCloning P s reg (FetchResult.ok scraped)
        (FetchResult.ok cloneData)).state.previewUrl = "" ∧
      (executeCloning P s reg (FetchResult.ok scraped)
        (FetchResult.ok cloneData)).registry = reg) := by
  obtain ⟨hs1, -⟩ := phase0_launched_eq P s s1 creq h
  refine ⟨?_, ?_, ?_, ?_, ?_, ?_⟩
  · simp [executeCloning, h, phase1, phase2]
  · simp [executeCloning, h, phase1, phase2]
  · simp [executeCloning, h, phase1, phase2, hs1]
  · simp [executeCloning, h, phase1, phase2]
  · intro hne
    have hb : (cloneData.html_content != "") = true := bne_iff_ne.mpr hne
    constructor
    · simp [executeCloning, h, phase1, phase2, hb, createObjectURL]
    · simp [executeCloning, h, phase1, phase2, hb, createObjectURL, urlLive]
  · intro heq
    have hb : (cloneData.html_content != "") = false := by
      simp [bne, heq]
    constructor
    · simp [executeCloning, h, phase1, phase2, hb, hs1]
    · simp [executeCloning, h, phase1, phase2, hb]

/-- Claim C6, witness: a successful run with non-empty markup from
`okState` completes with the stored results and a live handle `blob:0`. -/
theorem C6_success_completion_witness :
    (executeCloning simplePlatform okState emptyRegistry
      (FetchResult.ok sampleScraped)
      (FetchResult.ok sampleClone)).state.scrapedData = some sampleScraped ∧
    (executeCloning simplePlatform okState emptyRegistry
      (FetchResult.ok sampleScraped)
      (FetchResult.ok sampleClone)).state.cloneResult = some sampleClone ∧
    (executeCloning simplePlatform okState emptyRegistry
      (FetchResult.ok sampleScraped)
      (FetchResult.ok sampleClone)).state.previewUrl = objectUrlOf 0 ∧
    urlLive (executeCloning simplePlatform okState emptyRegistry
      (FetchResult.ok sampleScraped)
      (FetchResult.ok sampleClone)).registry (objectUrlOf 0) = true := by
  have h := C6_success_completion simplePlatform okState okS1 okCreq
    emptyRegistry sampleScraped sampleClone (by decide)
  have h5 := h.2.2.2.2.1 (by decide)
  exact ⟨h.1, h.2.1, h5.1, h5.2⟩

/-- A successful run whose reconstruct stage returns empty markup. -/
def c6Run : RunOutcome :=
  executeCloning simplePlatform okState emptyRegistry
    (FetchResult.ok sampleScraped) (FetchResult.ok sampleCloneEmpty)

/-- Claim C6, counterexample: when the generated markup is the empty
string, the run stores the reconstruct result and reports completion, but
no artifact preview handle is materialized or stored — the preview
reference stays empty and the registry stays empty, so the handle is
absent, contradicting that materialize is invoked and succeeds for every
string input including the empty string. -/
theorem C6_empty_markup_no_handle_cex :
    c6Run.state.cloneResult = some sampleCloneEmpty ∧
    c6Run.state.currentStep = "✅ Website cloning completed successfully!" ∧
    c6Run.state.previewUrl = "" ∧
    c6Run.registry.live = [] := by
  exact ⟨rfl, rfl, rfl, rfl⟩

/-- Claim C7 (amended, proved): the defaults are 1280, 720 and 8000, and
the number-input edit handlers store the typed value verbatim — no
clamping happens anywhere between the edit and the capture call, whose
request carries exactly the stored values. -/
theorem C7_defaults_and_unclamped_propagation (P : URLPlatform)
    (s s1 : AppState) (creq : CaptureRequest) (w ht t : Int)
    (h : phase0 P (handleWaitTimeChange (handleViewportHeightChange
          (handleViewportWidthChange s w) ht) t) =
        Phase0Result.launched s1 creq) :
    initialState.viewportWidth = 1280 ∧
    initialState.viewportHeight = 720 ∧
    initialState.waitTime = 8000 ∧
    creq.viewport_width = w ∧ creq.viewport_height = ht ∧
    creq.wait_time = t := by
  obtain ⟨-, hcreq⟩ := phase0_launched_eq P _ s1 creq h
  subst hcreq
  exact ⟨rfl, rfl, rfl, rfl, rfl, rfl⟩

/-- The state after editing all three advanced options to out-of-range
values. -/
def c7Edited : AppState :=
  handleWaitTimeChange (handleViewportHeightChange
    (handleViewportWidthChange okState 5000) 50) 99999999

/-- The state at the capture call of a run from `c7Edited`. -/
def c7S1 : AppState := phase0State (phase0 simplePlatform c7Edited)

/-- The capture request of a run from `c7Edited`. -/
def c7Creq : CaptureRequest := ⟨"https://example.com", true, 5000, 50, 99999999⟩

/-- Claim C7, witness: the out-of-range edits 5000, 50 and 99999999 are
stored and carried verbatim in the capture request. -/
theorem C7_defaults_and_unclamped_propagation_witness :
    initialState.viewportWidth = 1280 ∧
    c7Creq.viewport_width = 5000 ∧
    c7Creq.viewport_height = 50 ∧
    c7Creq.wait_time = 99999999 := by
  have h := C7_defaults_and_unclamped_propagation simplePlatform okState c7S1
    c7Creq 5000 50 99999999 (by decide)
  exact ⟨h.1, h.2.2.2.1, h.2.2.2.2.1, h.2.2.2.2.2⟩

/-- Claim C7, counterexample: after editing the viewport width to 5000
(outside the documented bound 1920 declared as the input's `max`), the
run issues a capture call whose request carries viewport width 5000 —
the out-of-range value is propagated unchecked to the capture call, so
the configuration does not always satisfy its bounds. -/
theorem C7_out_of_range_propagated_cex :
    phase0Request (phase0 simplePlatform (handleViewportWidthChange okState 5000))
      = some ⟨"https://example.com", true, 5000, 720, 8000⟩ ∧
    ¬((5000 : Int) ≤ viewportWidthMax) := by
  exact ⟨rfl, by decide⟩

end Cloner
